import Mathlib

/-!
Formal model of the KickCraft 11v11 soccer prototype.

The simulation core lives in the React component embedded in `src/README.md`
(world constants, pseudo-3D projection, per-tick `update` with ball physics,
goal detection, trapping, team movement, goalkeeper logic and the defender
press/tackle loop, plus the `shoot`/`passToIndex` input actions and the level
progression), and the offline asset service worker lives in `src/docs/sw.js`.

All world quantities are embedded as exact rationals (`ℚ`).  The JavaScript
numeric primitives that are not rational-valued (`Math.sqrt` behind
`Math.hypot`, `Math.sin`, `Math.cos`, `Math.atan2`) and the ambient random
stream (`Math.random`) are threaded through every step function as an abstract
structure `Prim`; a tick is a pure function of the state, the elapsed time and
those primitives.  Sequential in-place mutation in the source is rendered as
sequential state-passing in the same statement order.
-/

/-- World width in logical units (`const W = 1100`). -/
def W : ℚ := 1100

/-- World height in logical units (`const H = 620`). -/
def H : ℚ := 620

/-- Goal mouth width (`const GOAL_W = 320`). -/
def GOAL_W : ℚ := 320

/-- Ball radius (`const BALL_R = 10`). -/
def BALL_R : ℚ := 10

/-- Wall bounce coefficient (`const RESTITUTION = 0.58`). -/
def RESTITUTION : ℚ := 0.58

/-- Baseline cap on simultaneous engaging defenders (`const MAX_ENGAGERS = 2`). -/
def MAX_ENGAGERS : ℕ := 2

/-- Baseline engagement radius (`const ENGAGE_RADIUS = 180`). -/
def ENGAGE_RADIUS : ℚ := 180

/-- Baseline defender speed (`const DEFENDER_SPEED = 180`). -/
def DEFENDER_SPEED : ℚ := 180

/-- Teammate movement speed (`const TEAMMATE_SPEED = 170`). -/
def TEAMMATE_SPEED : ℚ := 170

/-- Baseline max ball speed at which a capture is possible
(`const CAPTURE_SPEED_MAX = 260`). -/
def CAPTURE_SPEED_MAX : ℚ := 260

/-- Minimum pass speed (`const PASS_MIN = 360`). -/
def PASS_MIN : ℚ := 360

/-- Maximum pass speed (`const PASS_MAX = 780`). -/
def PASS_MAX : ℚ := 780

/-- Finesse shot lateral spin (`const FINESSE_SPIN = 85`). -/
def FINESSE_SPIN : ℚ := 85

/-- Driven shot speed factor (`const DRIVEN_SPEED_F = 1.18`). -/
def DRIVEN_SPEED_F : ℚ := 1.18

/-- Finesse shot speed factor (`const FINESSE_SPEED_F = 0.82`). -/
def FINESSE_SPEED_F : ℚ := 0.82

/-- Shot aim spray in radians (`const SHOT_SPRAY = 0.03`). -/
def SHOT_SPRAY : ℚ := 0.03

/-- Goalkeeper reaction delay in ms (`const GK_REACT_MS = 120`). -/
def GK_REACT_MS : ℚ := 120

/-- Min ball speed that forces a parry (`const GK_PARRY_SPEED = 520`). -/
def GK_PARRY_SPEED : ℚ := 520

/-- Ball speed below which the keeper holds the ball (`const GK_HOLD_SPEED = 380`). -/
def GK_HOLD_SPEED : ℚ := 380

/-- Pseudo-3D perspective parameters (`const PERS = {...}`). -/
structure Pers where
  top : ℚ
  bottom : ℚ
  sFar : ℚ
  sNear : ℚ

/-- The perspective configuration: top margin 24, bottom margin `H - 24`,
far scale 0.55, near scale 1. -/
def PERS : Pers := { top := 24, bottom := H - 24, sFar := 0.55, sNear := 1 }

/-- Perspective scale at world depth `y` (`function scaleAtY`): the fraction
`y / H` is clamped into `[0, 1]` and interpolates between `sFar` and `sNear`. -/
def scaleAtY (y : ℚ) : ℚ :=
  let t := max 0 (min 1 (y / H))
  PERS.sFar + (PERS.sNear - PERS.sFar) * t

/-- World-to-screen projection (`function project`): returns the screen point
and the scale used, as the triple `(px, py, s)`. -/
def project (x y : ℚ) : ℚ × ℚ × ℚ :=
  let s := scaleAtY y
  ((x - W / 2) * s + W / 2, PERS.top + (PERS.bottom - PERS.top) * (y / H), s)

/-- The `s || 1` guard of `unproject`: a zero scale is replaced by 1 before
dividing (JavaScript `||` substitutes 1 exactly when `s` is `0`). -/
def safeScale (s : ℚ) : ℚ := if s = 0 then 1 else s

/-- Screen-to-world inverse projection (`function unproject`): recover the
interpolation fraction from `py`, clamp the recovered world `y` into `[0, H]`,
then invert the x-scaling with the `|| 1` division guard. -/
def unproject (px py : ℚ) : ℚ × ℚ :=
  let t := (py - PERS.top) / (PERS.bottom - PERS.top)
  let y := max 0 (min H (t * H))
  let s := scaleAtY y
  ((px - W / 2) / safeScale s + W / 2, y)

/-- Abstract numeric/random primitives of the JavaScript host: `Math.sqrt`
(behind `Math.hypot`), `Math.sin`, `Math.cos`, `Math.atan2 dy dx`, and the
ambient `Math.random` stream indexed by how many draws happened so far. -/
structure Prim where
  sqrt : ℚ → ℚ
  sin : ℚ → ℚ
  cos : ℚ → ℚ
  atan2 : ℚ → ℚ → ℚ
  rand : ℕ → ℚ

/-- `Math.hypot(x, y)` as the abstract square root of `x² + y²`. -/
def hypot (P : Prim) (x y : ℚ) : ℚ := P.sqrt (x ^ 2 + y ^ 2)

/-- The ball record (`state.ball`). -/
structure Ball where
  x : ℚ
  y : ℚ
  vx : ℚ
  vy : ℚ
  r : ℚ
  spin : ℚ

/-- An outfield player record as produced by `spawnTeamWithRoles`: role tag,
jersey number, position, radius, idle phase, engagement flag, reaction delay,
lag timer and home anchor. -/
structure Player where
  role : String
  num : ℕ
  x : ℚ
  y : ℚ
  r : ℚ
  phase : ℚ
  engaged : Bool
  react : ℚ
  lag : ℚ
  homeX : ℚ
  homeY : ℚ

/-- A goalkeeper record (`state.gkFR` / `state.gkPT`). -/
structure GK where
  x : ℚ
  y : ℚ
  speed : ℚ
  react : ℚ
  reactT : ℚ

/-- One difficulty tier of the `LEVELS` table. -/
structure Cfg where
  name : String
  maxEngagers : ℕ
  defenderSpeed : ℚ
  engageRadius : ℚ
  holdRadius : ℚ
  captureSpeedMax : ℚ
  passGrace : ℚ

/-- The seven-tier difficulty table (`const LEVELS = [...]`). -/
def LEVELS : List Cfg :=
  [ { name := "Friendly", maxEngagers := 2, defenderSpeed := 200,
      engageRadius := 185, holdRadius := 88, captureSpeedMax := 280,
      passGrace := 700 },
    { name := "Warmup", maxEngagers := 2, defenderSpeed := 220,
      engageRadius := 195, holdRadius := 84, captureSpeedMax := 300,
      passGrace := 650 },
    { name := "League Match", maxEngagers := 2, defenderSpeed := 240,
      engageRadius := 205, holdRadius := 82, captureSpeedMax := 320,
      passGrace := 620 },
    { name := "Cup Tie", maxEngagers := 3, defenderSpeed := 255,
      engageRadius := 215, holdRadius := 80, captureSpeedMax := 340,
      passGrace := 580 },
    { name := "Quarterfinal", maxEngagers := 3, defenderSpeed := 270,
      engageRadius := 225, holdRadius := 78, captureSpeedMax := 360,
      passGrace := 540 },
    { name := "Semifinal", maxEngagers := 3, defenderSpeed := 285,
      engageRadius := 235, holdRadius := 76, captureSpeedMax := 380,
      passGrace := 520 },
    { name := "Final", maxEngagers := 3, defenderSpeed := 300,
      engageRadius := 245, holdRadius := 74, captureSpeedMax := 400,
      passGrace := 500 } ]

/-- The movement-key flags of `state.keys`. -/
structure Keys where
  w : Bool
  a : Bool
  s : Bool
  d : Bool
  left : Bool
  right : Bool
  up : Bool
  down : Bool

/-- The shot-modifier flags of `state.mod`. -/
structure Mods where
  shift : Bool
  ctrl : Bool

/-- The AI possession record `state.ai`: the defender currently carrying the
ball (an index into `state.defenders`, `null` as `none`) and the index of the
attacking-team carrier (`-1` when nobody). -/
structure Ai where
  carrier : Option ℕ
  ptCarrier : ℤ

/-- The whole mutable simulation state (the `state` object).  `rnd` is not a
field of the JavaScript object: it models the position in the ambient
`Math.random` stream consumed via `Prim.rand`. -/
structure GameState where
  t : ℚ
  ball : Ball
  charging : Bool
  t0 : ℚ
  aimX : ℚ
  aimY : ℚ
  defenders : List Player
  mates : List Player
  tackleCd : ℚ
  protect : ℚ
  ai : Ai
  score : ℕ
  against : ℕ
  gkFR : GK
  gkPT : GK
  trapLock : ℚ
  trapOwner : ℤ
  receiverIndex : ℤ
  selectedIdx : ℕ
  keys : Keys
  mod : Mods
  levelIdx : ℕ
  goalsToAdvance : ℕ
  levelProgress : ℕ
  rnd : ℕ

/-- The tier record for a clamped index, `LEVELS[i]` after `applyLevel`'s
clamp (always in range, so the fallback head is never consulted). -/
def cfgAt (i : ℕ) : Cfg :=
  (LEVELS.get? i).getD
    { name := "Friendly", maxEngagers := 2, defenderSpeed := 200,
      engageRadius := 185, holdRadius := 88, captureSpeedMax := 280,
      passGrace := 700 }

/-- The active tier configuration, `state.cfg` (kept in sync with `levelIdx`
by `applyLevel`; the code reads `state.cfg` which always holds
`LEVELS[state.levelIdx]`). -/
def GameState.cfg (s : GameState) : Cfg := cfgAt s.levelIdx

/-- `function applyLevel(i)`: clamp the index into `[0, LEVELS.length - 1]`
and make that tier active.  The `Math.max(0, ...)` part of the clamp is
implicit in the `ℕ` index. -/
def applyLevel (i : ℕ) (s : GameState) : GameState :=
  { s with levelIdx := min (LEVELS.length - 1) i }

/-- `function advanceLevel()`: move to the next tier (clamped). -/
def advanceLevel (s : GameState) : GameState :=
  applyLevel (s.levelIdx + 1) s

/-- `function resetBall()`: ball to field center with zero velocity and spin,
defender carrier and attacker carrier cleared, protection cleared, receiver
cleared, both keeper reaction timers cleared.  (`trapOwner`, `trapLock` and
`tackleCd` are not touched.) -/
def resetBall (s : GameState) : GameState :=
  { s with
    ball := { s.ball with x := W / 2, y := H / 2, vx := 0, vy := 0, spin := 0 },
    ai := { s.ai with carrier := none, ptCarrier := -1 },
    protect := 0,
    receiverIndex := -1,
    gkFR := { s.gkFR with reactT := 0 },
    gkPT := { s.gkPT with reactT := 0 } }

/-- The progression part of the away-goal branch of `update`:
`state.score++; state.levelProgress++;` and, when the intra-tier counter has
reached `goalsToAdvance`, reset the counter and `advanceLevel()`. -/
def progressGoal (s : GameState) : GameState :=
  let s1 := { s with score := s.score + 1, levelProgress := s.levelProgress + 1 }
  if s1.levelProgress ≥ s1.goalsToAdvance then
    advanceLevel { s1 with levelProgress := 0 }
  else s1

/-- Timer decay at the top of `update`: `tackleCd`, `protect` and `trapLock`
each decrease by `dt*1000` ms, floored at 0. -/
def tickTimers (dt : ℚ) (s : GameState) : GameState :=
  { s with
    tackleCd := max 0 (s.tackleCd - dt * 1000),
    protect := max 0 (s.protect - dt * 1000),
    trapLock := max 0 (s.trapLock - dt * 1000) }

/-- Ball integration (`update`, "Integrate ball" block): spin accelerates the
x-velocity, position advances by the new velocity, then multiplicative drag
`(1 - 0.08*dt)` is applied to both velocity components. -/
def integrateBall (dt : ℚ) (s : GameState) : GameState :=
  let b := s.ball
  let vx1 := b.vx + b.spin * dt
  { s with ball :=
      { b with
        vx := vx1 * (1 - 0.08 * dt),
        vy := b.vy * (1 - 0.08 * dt),
        x := b.x + vx1 * dt,
        y := b.y + b.vy * dt } }

/-- Wall resolution (`update`, "Walls" block, with `const pad = 24`): on
penetration the position is clamped to the inset boundary and the offending
velocity component is reflected scaled by `RESTITUTION`, but only if still
moving into the wall.  `wallX` is the two vertical edges (first and second
if-statements), which read and write only `x`/`vx`. -/
def wallX (b : Ball) : Ball :=
  let b1 := if b.x < 24 + b.r then
      { b with x := 24 + b.r, vx := if b.vx < 0 then -b.vx * RESTITUTION else b.vx }
    else b
  if b1.x > W - 24 - b1.r then
    { b1 with x := W - 24 - b1.r, vx := if b1.vx > 0 then -b1.vx * RESTITUTION else b1.vx }
  else b1

/-- The two horizontal edges (third and fourth if-statements of the walls
block), which read and write only `y`/`vy`. -/
def wallY (b : Ball) : Ball :=
  let b3 := if b.y < 24 + b.r then
      { b with y := 24 + b.r, vy := if b.vy < 0 then -b.vy * RESTITUTION else b.vy }
    else b
  if b3.y > H - 24 - b3.r then
    { b3 with y := H - 24 - b3.r, vy := if b3.vy > 0 then -b3.vy * RESTITUTION else b3.vy }
  else b3

/-- All four wall if-statements in source order (left, right, top, bottom). -/
def resolveWalls (b : Ball) : Ball := wallY (wallX b)

/-- The walls block lifted to the whole state. -/
def wallsStep (s : GameState) : GameState :=
  { s with ball := resolveWalls s.ball }

/-- Goal detection (`update`, "Goals" block, `const awayY = 36, homeY = H-36`):
the away branch runs the score/level progression then `resetBall()`; the home
branch increments `against` then `resetBall()`. -/
def goalStep (s : GameState) : GameState :=
  let b := s.ball
  let s1 :=
    if b.y - b.r < 36 ∧ |b.x - W / 2| < GOAL_W / 2 then resetBall (progressGoal s)
    else s
  let b1 := s1.ball
  if b1.y + b1.r > H - 36 ∧ |b1.x - W / 2| < GOAL_W / 2 then
    resetBall { s1 with against := s1.against + 1 }
  else s1

/-- The teammate-trap loop body: scan the roster in order for the first player
overlapping the ball by more than the 1-unit tolerance. -/
def trapScan (P : Prim) (b : Ball) : ℕ → List Player → Option (ℕ × Player)
  | _, [] => none
  | i, m :: rest =>
    if hypot P (b.x - m.x) (b.y - m.y) < m.r + b.r - 1 then some (i, m)
    else trapScan P b (i + 1) rest

/-- Teammate trap (`update`, "Teammate trap" loop).  The source checks
`state.trapLock <= 0` inside the loop, but `trapLock` is unchanged until the
loop `break`s, so the check hoists to a guard around the first-overlap scan.
On a trap the ball snaps just above the player with zero velocity and spin and
the possession trackers are set; `state.ai.carrier` is not touched. -/
def trapStep (P : Prim) (s : GameState) : GameState :=
  if s.trapLock ≤ 0 then
    match trapScan P s.ball 0 s.mates with
    | some im =>
      { s with
        ball := { s.ball with x := im.2.x, y := im.2.y - 12, vx := 0, vy := 0, spin := 0 },
        protect := 500,
        receiverIndex := (im.1 : ℤ),
        trapLock := 300,
        trapOwner := (im.1 : ℤ),
        ai := { s.ai with ptCarrier := (im.1 : ℤ) } }
    | none => s
  else s

/-- Movement of one attacking player (`update`, "Portugal movement" loop):
the selected player moves from key input at `TEAMMATE_SPEED` clamped to the
field; others drift toward their anchor with a sinusoidal weave, vertically
capped at 140 units behind the ball. -/
def mateMove (P : Prim) (dt : ℚ) (s : GameState) (i : ℕ) (m : Player) : Player :=
  let m1 := { m with phase := m.phase + dt }
  if i = s.selectedIdx then
    let vx : ℚ := (if s.keys.d ∨ s.keys.right then 1 else 0) +
      (if s.keys.a ∨ s.keys.left then -1 else 0)
    let vy : ℚ := (if s.keys.s ∨ s.keys.down then 1 else 0) +
      (if s.keys.w ∨ s.keys.up then -1 else 0)
    let mag := if hypot P vx vy = 0 then 1 else hypot P vx vy
    let stepL := TEAMMATE_SPEED * dt
    let x1 := m1.x + vx / mag * stepL
    let y1 := m1.y + vy / mag * stepL
    { m1 with x := max 24 (min (W - 24) x1), y := max 24 (min (H - 24) y1) }
  else
    let targetY := min m1.homeY (s.ball.y + 140)
    let targetX := m1.homeX + P.sin (m1.phase * 1.1) * 20
    let dx := targetX - m1.x
    let dy := targetY - m1.y
    let dL := if hypot P dx dy = 0 then 1 else hypot P dx dy
    let stepL := min (TEAMMATE_SPEED * 0.8 * dt) dL
    { m1 with x := m1.x + dx / dL * stepL, y := m1.y + dy / dL * stepL }

/-- The attacking-team movement loop lifted to the state (each player's update
reads only the ball and the shared input, so the loop is a map). -/
def matesStep (P : Prim) (dt : ℚ) (s : GameState) : GameState :=
  { s with mates := s.mates.enum.map (fun im => mateMove P dt s im.1 im.2) }

/-- Ball attachment to the attacking carrier (`update`, "If selected is
carrier" block): the selected carrier glues the ball (zeroing spin as well);
a non-selected carrier auto-advances up the pitch (floored at `awayY + 24`)
and glues the ball without touching spin. -/
def attachStep (dt : ℚ) (s : GameState) : GameState :=
  if s.ai.ptCarrier = (s.selectedIdx : ℤ) then
    match s.mates.get? s.selectedIdx with
    | some m =>
      { s with ball := { s.ball with x := m.x, y := m.y - 12, vx := 0, vy := 0, spin := 0 } }
    | none => s
  else if 0 ≤ s.ai.ptCarrier then
    match s.mates.get? s.ai.ptCarrier.toNat with
    | some m =>
      let stepM := TEAMMATE_SPEED * dt
      let m1 := { m with y := max (36 + 24) (m.y - stepM) }
      { s with
        mates := s.mates.set s.ai.ptCarrier.toNat m1,
        ball := { s.ball with x := m1.x, y := m1.y - 12, vx := 0, vy := 0 } }
    | none => s
  else s

/-- `function gkUpdate(gk, b, topGoal, dt)`: predictive keeper positioning.
The keeper only reacts when the ball moves toward its line; while the reaction
timer runs it decays; otherwise the keeper steps (speed-capped) toward the
ball's extrapolated crossing x clamped inside the goal mouth, and a fresh
micro reaction delay is imposed.  The `(b.vy || 1e-6)` guard is modelled
exactly; the spin term is multiplied by 0 as in the source. -/
def gkUpdate (gk : GK) (b : Ball) (topGoal : Bool) (dt : ℚ) : GK :=
  let goalY := if topGoal then (36 : ℚ) else H - 36
  let vyToward : Bool := if topGoal then decide (b.vy < 0) else decide (b.vy > 0)
  if !vyToward then { gk with reactT := max 0 (gk.reactT - dt * 1000) }
  else
    let t := |(goalY - b.y) / (if b.vy = 0 then 1 / 1000000 else b.vy)|
    if gk.reactT > 0 then { gk with reactT := max 0 (gk.reactT - dt * 1000) }
    else
      let projX := b.x + b.vx * t + 0.5 * b.spin * t ^ 2 * 0
      let leftBound := W / 2 - GOAL_W / 2 + 18
      let rightBound := W / 2 + GOAL_W / 2 - 18
      let targetX := max leftBound (min rightBound projX)
      let stepL := gk.speed * dt
      { gk with
        x := gk.x + max (-stepL) (min stepL (targetX - gk.x)),
        reactT := GK_REACT_MS * 0.25 }

/-- `function rotate(vx, vy, angle)` via the abstract `cos`/`sin`. -/
def rotate (P : Prim) (vx vy angle : ℚ) : ℚ × ℚ :=
  (vx * P.cos angle - vy * P.sin angle, vx * P.sin angle + vy * P.cos angle)

/-- `function gkSave(gk, b, topGoal)`: on contact at the goal mouth a slow
ball is smothered (held, protection 200 ms), a fast one is parried through a
random deflection angle with damping (protection 140 ms).  A parry consumes
two random draws. -/
def gkSave (P : Prim) (gk : GK) (topGoal : Bool) (s : GameState) : GameState :=
  let b := s.ball
  let withinX := |b.x - gk.x| < 34
  if topGoal then
    if b.y - b.r < gk.y + 14 ∧ withinX ∧ b.vy < 0 then
      if hypot P b.vx b.vy < GK_HOLD_SPEED then
        { s with ball := { b with vx := 0, vy := 0, x := gk.x, y := gk.y + 12 },
                 protect := 200 }
      else
        let sign : ℚ := if P.rand s.rnd < 0.5 then -1 else 1
        let angle := sign * (0.25 + P.rand (s.rnd + 1) * 0.35)
        let newV := rotate P b.vx b.vy angle
        { s with rnd := s.rnd + 2,
                 ball := { b with vx := newV.1 * 0.8, vy := |newV.2| * 0.6, y := gk.y + 12 },
                 protect := 140 }
    else s
  else
    if b.y + b.r > gk.y - 14 ∧ withinX ∧ b.vy > 0 then
      if hypot P b.vx b.vy < GK_HOLD_SPEED then
        { s with ball := { b with vx := 0, vy := 0, x := gk.x, y := gk.y - 12 },
                 protect := 200 }
      else
        let sign : ℚ := if P.rand s.rnd < 0.5 then -1 else 1
        let angle := sign * (0.25 + P.rand (s.rnd + 1) * 0.35)
        let newV := rotate P b.vx b.vy angle
        { s with rnd := s.rnd + 2,
                 ball := { b with vx := newV.1 * 0.8, vy := -|newV.2| * 0.6, y := gk.y - 12 },
                 protect := 140 }
    else s

/-- Stable insertion into an ascending list: the new element goes after every
existing element whose key is `≤` its own. -/
def insertAsc {α : Type} (le : α → α → Bool) (a : α) : List α → List α
  | [] => [a]
  | b :: l => if le b a then b :: insertAsc le a l else a :: l

/-- Stable ascending sort, modelling `Array.prototype.sort` with the numeric
comparator `(a, b) => a.dist - b.dist` (JavaScript's sort is stable). -/
def sortAsc {α : Type} (le : α → α → Bool) (l : List α) : List α :=
  l.foldl (fun acc a => insertAsc le a acc) []

/-- The engagement-set loop (`update`, "France defensive logic"): walk the
distance-sorted defenders, stop when the tier cap is reached, and add those
within the engagement radius.  `cnt` is the current size of the set. -/
def takeEngaged (maxE : ℕ) (radE : ℚ) : List (ℕ × ℚ) → ℕ → List ℕ
  | [], _ => []
  | e :: rest, cnt =>
    if maxE ≤ cnt then []
    else if e.2 < radE then e.1 :: takeEngaged maxE radE rest (cnt + 1)
    else takeEngaged maxE radE rest cnt

/-- The shared mutable state threaded through the defender loop: the ball,
the possession/timer fields and the random-stream position. -/
structure DefAcc where
  ball : Ball
  carrier : Option ℕ
  ptCarrier : ℤ
  tackleCd : ℚ
  protect : ℚ
  rnd : ℕ

/-- The movement half of one defender-loop iteration
(`for (const p of state.defenders)`): the engagement flag and lag-timer
transitions, then the step toward the anchor or toward the lead point
extrapolated 0.35 s ahead of the ball.  It reads the shared state only
through the current ball. -/
def defMove (P : Prim) (cfg : Cfg) (E : List ℕ) (dt : ℚ) (ball : Ball)
    (ip : ℕ × Player) : Player :=
  let i := ip.1
  let p := ip.2
  let isEngaging : Bool := decide (i ∈ E)
  let p1 := if isEngaging && !p.engaged then
      { p with lag := p.react / 1000, engaged := true }
    else p
  let p2 := if !isEngaging && p1.engaged then { p1 with engaged := false, lag := 0 } else p1
  let tp :=
    if isEngaging then
      if p2.lag > 0 then ((p2.homeX, p2.homeY), { p2 with lag := p2.lag - dt })
      else ((ball.x + ball.vx * 0.35, ball.y + ball.vy * 0.35), p2)
    else ((p2.homeX, p2.homeY), p2)
  let p3 := tp.2
  let dx := tp.1.1 - p3.x
  let dy := tp.1.2 - p3.y
  let dist := if hypot P dx dy = 0 then 1 else hypot P dx dy
  let stepL := min (cfg.defenderSpeed * dt * (if isEngaging then 1 else 0.7)) dist
  { p3 with
    x := p3.x + dx / dist * stepL,
    y := p3.y + dy / dist * stepL,
    phase := p3.phase + dt }

/-- The possession half of one defender-loop iteration, acting on the shared
state after the defender has moved to `p4`: the guarded tackle/capture
("Tackle/capture when close & ball slow enough"), then the carrier branch
("If carrying, dribble & shoot at home goal"): an automatic randomized shot
when deep and laterally aligned with the home goal mouth, else the ball is
glued just above the carrier. -/
def defPossess (P : Prim) (cfg : Cfg) (acc : DefAcc) (i : ℕ) (p4 : Player) :
    DefAcc × Player :=
  let bd := hypot P (acc.ball.x - p4.x) (acc.ball.y - p4.y)
  let bs := hypot P acc.ball.vx acc.ball.vy
  let acc1 :=
    if acc.carrier ≠ some i ∧ acc.protect ≤ 0 ∧ acc.tackleCd ≤ 0 ∧
        bd < p4.r + acc.ball.r ∧ bs ≤ cfg.captureSpeedMax then
      { acc with carrier := some i, tackleCd := 120, protect := 250, ptCarrier := -1,
                 ball := { acc.ball with spin := 0 } }
    else acc
  if acc1.carrier = some i then
    if H - 36 - p4.y < 60 ∧ |p4.x - W / 2| < GOAL_W / 2 - 20 then
      let speed := 520 + P.rand acc1.rnd * 160
      let dxs := W / 2 - p4.x
      let dys := H - 36 - p4.y - 6
      let Ls := if hypot P dxs dys = 0 then 1 else hypot P dxs dys
      let ball1 := { acc1.ball with x := p4.x, y := p4.y - 6,
                                    vx := dxs / Ls * speed, vy := dys / Ls * speed }
      let acc2 := { acc1 with rnd := acc1.rnd + 1, carrier := none, protect := 40,
                              ball := ball1 }
      (acc2, p4)
    else
      let ball1 := { acc1.ball with x := p4.x, y := p4.y - 12, vx := 0, vy := 0 }
      ({ acc1 with ball := ball1 }, p4)
  else (acc1, p4)

/-- One full iteration of the defender loop: move, then resolve possession. -/
def defIter (P : Prim) (cfg : Cfg) (E : List ℕ) (dt : ℚ) (acc : DefAcc)
    (ip : ℕ × Player) : DefAcc × Player :=
  defPossess P cfg acc ip.1 (defMove P cfg E dt acc.ball ip)

/-- The defender loop: fold `defIter` over the indexed defender list,
threading the shared accumulator and collecting the updated players. -/
def defAccum (P : Prim) (cfg : Cfg) (E : List ℕ) (dt : ℚ) :
    DefAcc → List (ℕ × Player) → DefAcc × List Player
  | acc, [] => (acc, [])
  | acc, ip :: rest =>
    let r1 := defIter P cfg E dt acc ip
    let r2 := defAccum P cfg E dt r1.1 rest
    (r2.1, r1.2 :: r2.2)

/-- The full defensive phase of `update`: distances to the ball, the stable
sort, the engagement set capped by the active tier, then the defender loop. -/
def defendersStep (P : Prim) (dt : ℚ) (s : GameState) : GameState :=
  let b := s.ball
  let sorted := sortAsc (fun a a' => decide (a.2 ≤ a'.2))
      (s.defenders.enum.map (fun ip => (ip.1, hypot P (ip.2.x - b.x) (ip.2.y - b.y))))
  let E := takeEngaged s.cfg.maxEngagers s.cfg.engageRadius sorted 0
  let res := defAccum P s.cfg E dt
      { ball := s.ball, carrier := s.ai.carrier, ptCarrier := s.ai.ptCarrier,
        tackleCd := s.tackleCd, protect := s.protect, rnd := s.rnd }
      s.defenders.enum
  { s with
    defenders := res.2,
    ball := res.1.ball,
    ai := { s.ai with carrier := res.1.carrier, ptCarrier := res.1.ptCarrier },
    tackleCd := res.1.tackleCd,
    protect := res.1.protect,
    rnd := res.1.rnd }

/-- One simulation tick, `function update(dt)`: timers, ball integration,
walls, goals, teammate trap, attacking-team movement, carrier attachment,
keeper updates and saves, then the defender phase, in source order. -/
def update (P : Prim) (dt : ℚ) (s : GameState) : GameState :=
  let s1 := tickTimers dt s
  let s2 := integrateBall dt s1
  let s3 := wallsStep s2
  let s4 := goalStep s3
  let s5 := trapStep P s4
  let s6 := matesStep P dt s5
  let s7 := attachStep dt s6
  let s8 := { s7 with gkFR := gkUpdate s7.gkFR s7.ball true dt }
  let s9 := { s8 with gkPT := gkUpdate s8.gkPT s8.ball false dt }
  let s10 := gkSave P s9.gkFR true s9
  let s11 := gkSave P s10.gkPT false s10
  defendersStep P dt s11

/-- `function shoot()` at wall-clock time `now`: charge converts to a clamped
power factor, shot type from the modifier keys, direction to the aim point
with a random spray, and fresh possession/timer trackers.  `state.ai.carrier`
is not among the fields written. -/
def shoot (P : Prim) (now : ℚ) (s : GameState) : GameState :=
  let ms := min 900 (now - s.t0)
  let pwr := max 0.15 (min 1 (ms / 900))
  let b := s.ball
  let dx := s.aimX - b.x
  let dy := s.aimY - b.y
  let finesse := s.mod.shift && !s.mod.ctrl
  let driven := s.mod.ctrl && !s.mod.shift
  let speedF := if finesse then FINESSE_SPEED_F else if driven then DRIVEN_SPEED_F else 1
  let baseAngle := P.atan2 dy dx
  let spray := (P.rand s.rnd - 0.5) * SHOT_SPRAY
  let a := baseAngle + spray
  let spd := (300 + pwr * 500) * speedF
  { s with
    rnd := s.rnd + 1,
    ball := { b with
      vx := P.cos a * spd,
      vy := P.sin a * spd,
      spin := if finesse then (if dx > 0 then FINESSE_SPIN else -FINESSE_SPIN) else 0 },
    protect := 120,
    receiverIndex := -1,
    trapLock := 250,
    trapOwner := -1,
    ai := { s.ai with ptCarrier := -1 } }

/-- `function passToIndex(idx)`: pass toward teammate `idx` (no-op when the
index is out of range, as `if (!m) return`), with speed proportional to
distance clamped into `[PASS_MIN, PASS_MAX]`, reception grace from the active
tier, and fresh possession/timer trackers.  `state.ai.carrier` is not among
the fields written. -/
def passToIndex (P : Prim) (idx : ℕ) (s : GameState) : GameState :=
  match s.mates.get? idx with
  | none => s
  | some m =>
    let b := s.ball
    let dx := m.x - b.x
    let dy := m.y - b.y
    let d := if hypot P dx dy = 0 then 1 else hypot P dx dy
    let speed := min PASS_MAX (max PASS_MIN (5 * d))
    { s with
      ball := { b with vx := dx / d * speed, vy := dy / d * speed, spin := 0 },
      protect := s.cfg.passGrace,
      receiverIndex := (idx : ℤ),
      trapLock := 250,
      trapOwner := -1,
      ai := { s.ai with ptCarrier := -1 } }

/-- `function passToSelected()`. -/
def passToSelected (P : Prim) (s : GameState) : GameState :=
  passToIndex P s.selectedIdx s

/-- `function cycleSelected(dir)` with `dir = 1` (the `Tab` key): wrap-around
increment of the selected index. -/
def cycleSelected (s : GameState) : GameState :=
  { s with selectedIdx := (s.selectedIdx + 1) % s.mates.length }

/-- A service-worker fetch request (`src/docs/sw.js`): origin, pathname and
method of `event.request`. -/
structure SwRequest where
  origin : String
  pathname : String
  method : String
deriving DecidableEq

/-- The versioned cache contents: newest entries first; `caches.match` finds
the most recent entry for a request, `cache.put` prepends one. -/
abbrev SwCache := List (SwRequest × String)

/-- `caches.match(req)`. -/
def cacheMatch (c : SwCache) (r : SwRequest) : Option String :=
  (c.find? (fun e => decide (e.1 = r))).map (fun e => e.2)

/-- `cache.put(req, copy)`. -/
def cachePut (c : SwCache) (r : SwRequest) (v : String) : SwCache :=
  (r, v) :: c

/-- The fixed path scope `'/kickcraft/'` checked by `startsWith`, as a
character list. -/
def kickScope : List Char := "/kickcraft/".data

/-- The request method handled by the cache-first branch. -/
def getMethod : String := "GET"

/-- The service worker fetch handler (`self.addEventListener('fetch', ...)`).
Out-of-scope requests (wrong origin, path outside `/kickcraft/`, or non-GET)
are not responded to (`none`).  In scope: a cached response is returned and
the network is never consulted; on a cache miss the network response is
returned and backfilled into the cache; if the network fetch rejects, the
`.catch(() => cached)` closure resolves the promise with `cached` — which in
that branch is necessarily absent — so the handler resolves with no response
(`Except.ok none`) and never rejects. -/
def fetchHandler (swOrigin : String) (net : SwRequest → Except String String)
    (c : SwCache) (req : SwRequest) :
    Option (Except String (Option String) × SwCache) :=
  if req.origin ≠ swOrigin then none
  else if ¬ kickScope.isPrefixOf req.pathname.data then none
  else if req.method ≠ getMethod then none
  else
    match cacheMatch c req with
    | some cached => some (Except.ok (some cached), c)
    | none =>
      match net req with
      | Except.ok res => some (Except.ok (some res), cachePut c req res)
      | Except.error _ => some (Except.ok none, c)

/-- A concrete primitive interpretation used for evaluating closed runs.  Its
square root table is exact at every argument on which the conclusion of the
run depends (`0`, `25`, `169`, `250000`, `6240004/25`); all other distances
evaluate to the large default `1000`, which agrees in comparison outcome with
the true square root at every site the closed runs consult (all such
distances are far above the thresholds they are compared against). -/
def primT : Prim :=
  { sqrt := fun q =>
      if q = 0 then 0
      else if q = 25 then 5
      else if q = 169 then 13
      else if q = 250000 then 500
      else if q = 6240004 / 25 then 2498 / 5
      else 1000,
    sin := fun _ => 0,
    cos := fun _ => 1,
    atan2 := fun _ _ => 0,
    rand := fun _ => 1 / 2 }

/-- An outfield player as spawned by `spawnTeamWithRoles`, with the two
random draws fixed (`phase = 0`, `react = 220`). -/
def mkPlayer (role : String) (num : ℕ) (x y : ℚ) : Player :=
  { role := role, num := num, x := x, y := y, r := 14, phase := 0, engaged := false,
    react := 220, lag := 0, homeX := x, homeY := y }

/-- The France outfield roster at its `ANCHORS_FR` home positions
(roles in `ROLES_FR` order). -/
def defendersFR : List Player :=
  [ mkPlayer ("RB") 2 810 (992 / 5),
    mkPlayer ("RCB") 4 670 (992 / 5),
    mkPlayer ("LCB") 5 430 (992 / 5),
    mkPlayer ("LB") 3 290 (992 / 5),
    mkPlayer ("CDM") 6 550 (1302 / 5),
    mkPlayer ("RCM") 8 670 (1364 / 5),
    mkPlayer ("LCM") 10 430 (1364 / 5),
    mkPlayer ("RW") 7 770 (682 / 5),
    mkPlayer ("ST") 9 550 124,
    mkPlayer ("LW") 11 330 (682 / 5) ]

/-- The Portugal outfield roster at its `ANCHORS_PT` home positions
(roles in `ROLES_PT` order). -/
def matesPT : List Player :=
  [ mkPlayer ("LB") 3 290 (2108 / 5),
    mkPlayer ("LCB") 5 430 (2108 / 5),
    mkPlayer ("RCB") 4 670 (2108 / 5),
    mkPlayer ("RB") 2 810 (2108 / 5),
    mkPlayer ("CDM") 6 550 (1798 / 5),
    mkPlayer ("LCM") 10 430 (1736 / 5),
    mkPlayer ("RCM") 8 670 (1736 / 5),
    mkPlayer ("LW") 11 330 (1302 / 5),
    mkPlayer ("ST") 9 550 248,
    mkPlayer ("RW") 7 770 (1302 / 5) ]

/-- A baseline game state: the initial `state` object with both rosters at
their anchors, ball at rest in the center, all timers and possession trackers
at their initial values and tier 0 active. -/
def baseState : GameState :=
  { t := 0,
    ball := { x := W / 2, y := H / 2, vx := 0, vy := 0, r := BALL_R, spin := 0 },
    charging := false,
    t0 := 0,
    aimX := W / 2,
    aimY := H / 2,
    defenders := defendersFR,
    mates := matesPT,
    tackleCd := 0,
    protect := 0,
    ai := { carrier := none, ptCarrier := -1 },
    score := 0,
    against := 0,
    gkFR := { x := W / 2, y := 52, speed := 360, react := GK_REACT_MS, reactT := 0 },
    gkPT := { x := W / 2, y := H - 52, speed := 360, react := GK_REACT_MS, reactT := 0 },
    trapLock := 0,
    trapOwner := -1,
    receiverIndex := -1,
    selectedIdx := 0,
    keys := { w := false, a := false, s := false, d := false,
              left := false, right := false, up := false, down := false },
    mod := { shift := false, ctrl := false },
    levelIdx := 0,
    goalsToAdvance := 2,
    levelProgress := 0,
    rnd := 0 }

/-- A goal-scoring tick state: the ball's leading edge is already across the
away goal line, centered on the goal mouth, while the trap lock, the tackle
cooldown and the trap owner are not at their initial values. -/
def cexC2 : GameState :=
  { baseState with
    ball := { x := 550, y := 40, vx := 0, vy := -300, r := 10, spin := 0 },
    trapLock := 240,
    tackleCd := 90,
    trapOwner := 3,
    score := 3 }

/-- The Portugal roster with its first player moved onto the ball at field
center (overlap distance 0). -/
def matesC7 : List Player :=
  mkPlayer ("LB") 3 550 310 :: matesPT.drop 1

/-- A trap-tick state: no trap lock, the first attacking player overlaps the
ball exactly, and a defender (index 2) is currently the carrier. -/
def cexC7 : GameState :=
  { baseState with
    mates := matesC7,
    ai := { carrier := some 2, ptCarrier := -1 } }

/-- A shot state in which a defender (index 3) is currently the carrier and
the attacker-side trackers are populated. -/
def cexC6 : GameState :=
  { baseState with
    ai := { carrier := some 3, ptCarrier := 7 },
    trapOwner := 7,
    receiverIndex := 7 }

/-- The France roster with the CDM (index 4, the current carrier) placed at
`(550, 322)` and the RCM (index 5) placed exactly at the carrier's glue point
`(550, 310)`; every player's anchor is its own position. -/
def defendersC3 : List Player :=
  [ mkPlayer ("RB") 2 810 (992 / 5),
    mkPlayer ("RCB") 4 670 (992 / 5),
    mkPlayer ("LCB") 5 430 (992 / 5),
    mkPlayer ("LB") 3 290 (992 / 5),
    mkPlayer ("CDM") 6 550 322,
    mkPlayer ("RCM") 8 550 310,
    mkPlayer ("LCM") 10 430 (1364 / 5),
    mkPlayer ("RW") 7 770 (682 / 5),
    mkPlayer ("ST") 9 550 124,
    mkPlayer ("LW") 11 330 (682 / 5) ]

/-- A tick state in which defender 4 carries while the ball flies at
500 units/s (far above the tier-0 capture ceiling of 280), with defender 5
standing on the carrier's glue point and all gates (protection, cooldown)
open. -/
def cexC3 : GameState :=
  { baseState with
    ball := { x := 550, y := 310, vx := 500, vy := 0, r := 10, spin := 0 },
    defenders := defendersC3,
    ai := { carrier := some 4, ptCarrier := -1 } }

/-- A defender-phase entry state with no carrier and an active protection
window. -/
def gateState : GameState :=
  { baseState with protect := 5 }

/-- The service worker's own origin for the closed runs. -/
def swOriginT : String := "https://example.test"

/-- An in-scope GET request. -/
def reqT : SwRequest :=
  { origin := swOriginT, pathname := "/kickcraft/index.html", method := "GET" }

/-- A network that rejects every fetch. -/
def netDown : SwRequest → Except String String :=
  fun _ => Except.error ("network down")

/-- A network that serves every fetch. -/
def netUp : SwRequest → Except String String :=
  fun _ => Except.ok ("payload")
/-- On `[0, H]` the scale interpolation clamp is inactive. -/
theorem scaleAtY_eq (y : ℚ) (h0 : 0 ≤ y) (h1 : y ≤ H) :
    scaleAtY y = 11 / 20 + 9 / 20 * (y / H) := by
  have hH : (0 : ℚ) < H := by norm_num [H]
  have ht1 : y / H ≤ 1 := by
    rw [div_le_one hH]; exact h1
  have ht0 : 0 ≤ y / H := div_nonneg h0 hH.le
  simp only [scaleAtY, min_eq_right ht1, max_eq_right ht0, PERS]
  norm_num

/-- The scale is bounded below by the far-edge factor, hence positive. -/
theorem scaleAtY_pos (y : ℚ) : 0 < scaleAtY y := by
  have h1 : max 0 (min 1 (y / H)) ≤ 1 := by
    apply max_le (by norm_num)
    exact min_le_left _ _
  have h0 : 0 ≤ max 0 (min 1 (y / H)) := le_max_left _ _
  simp only [scaleAtY, PERS]
  nlinarith [h0, h1]

/-- C1.  For every world point `(x, y)` with `0 ≤ y ≤ H`, unprojecting the
projection returns the original point.  Over exact rational arithmetic the
round trip is an identity (so in floating point it holds up to rounding). -/
theorem c1_unproject_project_roundtrip (x y : ℚ) (h0 : 0 ≤ y) (h1 : y ≤ H) :
    unproject (project x y).1 (project x y).2.1 = (x, y) := by
  have hH : (0 : ℚ) < H := by norm_num [H]
  have hbt : PERS.bottom - PERS.top = H - 48 := by simp only [PERS]; ring
  have hbt0 : PERS.bottom - PERS.top ≠ 0 := by rw [hbt]; norm_num [H]
  have hs := scaleAtY_pos y
  simp only [unproject, project]
  have hfrac :
      (PERS.top + (PERS.bottom - PERS.top) * (y / H) - PERS.top) /
        (PERS.bottom - PERS.top) = y / H := by
    field_simp
    ring
  rw [hfrac, div_mul_cancel₀ y hH.ne']
  rw [min_eq_right h1, max_eq_right h0]
  have hguard : safeScale (scaleAtY y) = scaleAtY y := by
    simp only [safeScale, if_neg hs.ne']
  rw [hguard]
  have hx : (x - W / 2) * scaleAtY y + W / 2 - W / 2 = (x - W / 2) * scaleAtY y := by
    ring
  rw [hx, mul_div_cancel_right₀ _ hs.ne']
  simp only [Prod.mk.injEq]
  exact ⟨by ring, trivial⟩

/-- C1 witness: the round trip at the concrete world point `(123, 31)`. -/
theorem c1_unproject_project_roundtrip_witness :
    (0 ≤ (31 : ℚ)) ∧ ((31 : ℚ) ≤ H) ∧
      unproject (project 123 31).1 (project 123 31).2.1 = (123, 31) :=
  ⟨by norm_num, by norm_num [H],
    c1_unproject_project_roundtrip 123 31 (by norm_num) (by norm_num [H])⟩

/-- C10.  `unproject` is total on arbitrary screen points: the recovered world
`y` is clamped into `[0, H]`, and the scale it divides by goes through the
`|| 1` guard, which never returns zero, so no division by zero occurs. -/
theorem c10_unproject_clamped_and_guarded (px py : ℚ) :
    0 ≤ (unproject px py).2 ∧ (unproject px py).2 ≤ H ∧
      safeScale (scaleAtY (unproject px py).2) ≠ 0 := by
  have hH : (0 : ℚ) ≤ H := by norm_num [H]
  refine ⟨?_, ?_, ?_⟩
  · simp only [unproject]
    exact le_max_left _ _
  · simp only [unproject]
    exact max_le hH (min_le_left _ _)
  · have := scaleAtY_pos (unproject px py).2
    simp only [safeScale]
    split
    · norm_num
    · exact this.ne'


/-- C9 (amended).  For in-scope GET requests the handler is cache-first with
network fallback and cache backfill; but on a network failure it resolves
with the (necessarily absent) `cached` value — `Except.ok none` — instead of
propagating the rejection.  A cache hit never consults the network: the
result is the same for any two network functions. -/
theorem c9_sw_fetch_amended (swOrigin : String)
    (net net' : SwRequest → Except String String) (c : SwCache) (req : SwRequest)
    (hor : req.origin = swOrigin)
    (hpath : kickScope.isPrefixOf req.pathname.data = true)
    (hm : req.method = getMethod) :
    (∀ r, cacheMatch c req = some r →
      fetchHandler swOrigin net c req = some (Except.ok (some r), c) ∧
      fetchHandler swOrigin net c req = fetchHandler swOrigin net' c req) ∧
    (∀ res, cacheMatch c req = none → net req = Except.ok res →
      fetchHandler swOrigin net c req = some (Except.ok (some res), cachePut c req res)) ∧
    (∀ e, cacheMatch c req = none → net req = Except.error e →
      fetchHandler swOrigin net c req = some (Except.ok none, c)) := by
  have hopen : ∀ n : SwRequest → Except String String, fetchHandler swOrigin n c req =
      (match cacheMatch c req with
       | some cached => some (Except.ok (some cached), c)
       | none =>
         match n req with
         | Except.ok res => some (Except.ok (some res), cachePut c req res)
         | Except.error _ => some (Except.ok none, c)) := by
    intro n
    unfold fetchHandler
    rw [if_neg (by simp [hor]), if_neg (by simp [hpath]), if_neg (by simp [hm])]
  refine ⟨?_, ?_, ?_⟩
  · intro r hr
    rw [hopen net, hopen net', hr]
    exact ⟨rfl, rfl⟩
  · intro res hc hn
    rw [hopen net, hc, hn]
  · intro e hc hn
    rw [hopen net, hc, hn]

/-- C9 witness: an in-scope GET request against an empty cache and a failing
network resolves with no response. -/
theorem c9_sw_fetch_amended_witness :
    reqT.origin = swOriginT ∧ kickScope.isPrefixOf reqT.pathname.data = true ∧
    reqT.method = getMethod ∧
    (∀ e, cacheMatch [] reqT = none → netDown reqT = Except.error e →
      fetchHandler swOriginT netDown [] reqT = some (Except.ok none, [])) :=
  ⟨rfl, by decide, rfl,
    (c9_sw_fetch_amended swOriginT netDown netDown [] reqT rfl (by decide) rfl).2.2⟩

/-- C9 counterexample.  With an empty cache and a failing network, the
handler resolves with `Except.ok none` — it does not propagate the network
failure `Except.error "network down"` to the caller as the claim states. -/
theorem c9_sw_error_swallowed_cex :
    fetchHandler swOriginT netDown [] reqT = some (Except.ok none, []) ∧
    (Except.ok (none : Option String) : Except String (Option String)) ≠
      Except.error ("network down") := by
  refine ⟨?_, by simp⟩
  rfl

/-- `progressGoal` changes only the score and the level counters. -/
theorem progressGoal_untouched (s : GameState) :
    (progressGoal s).ball = s.ball ∧ (progressGoal s).against = s.against ∧
    (progressGoal s).ai = s.ai ∧ (progressGoal s).protect = s.protect ∧
    (progressGoal s).receiverIndex = s.receiverIndex ∧
    (progressGoal s).trapOwner = s.trapOwner ∧ (progressGoal s).trapLock = s.trapLock ∧
    (progressGoal s).tackleCd = s.tackleCd ∧ (progressGoal s).gkFR = s.gkFR ∧
    (progressGoal s).gkPT = s.gkPT ∧ (progressGoal s).score = s.score + 1 := by
  simp only [progressGoal, advanceLevel, applyLevel]
  split_ifs <;> simp

/-- C2 (amended).  When the ball's leading edge is across the away goal line
inside the goal mouth, the goal branch increments the attacking score by
exactly 1, resets the ball to field center with zero velocity and spin, and
clears the defender carrier, the attacker carrier, the receiver index, the
protection timer and the keeper reaction timers — but it leaves `trapOwner`,
`trapLock` and `tackleCd` untouched (.`resetBall` never writes them). -/
theorem c2_goal_reset_amended (s : GameState)
    (hy : s.ball.y - s.ball.r < 36) (hx : |s.ball.x - W / 2| < GOAL_W / 2)
    (hr : s.ball.r ≤ 274) :
    (goalStep s).score = s.score + 1 ∧
    (goalStep s).against = s.against ∧
    (goalStep s).ball.x = W / 2 ∧ (goalStep s).ball.y = H / 2 ∧
    (goalStep s).ball.vx = 0 ∧ (goalStep s).ball.vy = 0 ∧
    (goalStep s).ball.spin = 0 ∧
    (goalStep s).ai.carrier = none ∧ (goalStep s).ai.ptCarrier = -1 ∧
    (goalStep s).receiverIndex = -1 ∧ (goalStep s).protect = 0 ∧
    (goalStep s).gkFR.reactT = 0 ∧ (goalStep s).gkPT.reactT = 0 ∧
    (goalStep s).trapOwner = s.trapOwner ∧
    (goalStep s).trapLock = s.trapLock ∧
    (goalStep s).tackleCd = s.tackleCd := by
  obtain ⟨hball, hagainst, hai, hprot, hrecv, howner, hlock, hcd, hfr, hpt, hscore⟩ :=
    progressGoal_untouched s
  have hcond2 : ¬ ((resetBall (progressGoal s)).ball.y +
      (resetBall (progressGoal s)).ball.r > H - 36 ∧
      |(resetBall (progressGoal s)).ball.x - W / 2| < GOAL_W / 2) := by
    simp only [resetBall]
    rw [hball]
    rintro ⟨h1, -⟩
    rw [show H / 2 = (310 : ℚ) by norm_num [H]] at h1
    rw [show H - 36 = (584 : ℚ) by norm_num [H]] at h1
    linarith
  have e1 : (if s.ball.y - s.ball.r < 36 ∧ |s.ball.x - W / 2| < GOAL_W / 2 then
      resetBall (progressGoal s) else s) = resetBall (progressGoal s) := if_pos ⟨hy, hx⟩
  have hstep : goalStep s = resetBall (progressGoal s) := by
    simp only [goalStep, e1]
    rw [if_neg hcond2]
  rw [hstep]
  simp [resetBall, hscore, hagainst, howner, hlock, hcd]

/-- C2 witness: a concrete away-goal state with `trapLock = 240`,
`tackleCd = 90` and `trapOwner = 3`, run through the goal branch. -/
theorem c2_goal_reset_amended_witness :
    (cexC2.ball.y - cexC2.ball.r < 36 ∧ |cexC2.ball.x - W / 2| < GOAL_W / 2 ∧
      cexC2.ball.r ≤ 274) ∧
    ((goalStep cexC2).score = cexC2.score + 1 ∧ (goalStep cexC2).ball.y = H / 2 ∧
      (goalStep cexC2).trapLock = cexC2.trapLock) := by
  have h := c2_goal_reset_amended cexC2 (by norm_num [cexC2, baseState, W, GOAL_W])
    (by norm_num [cexC2, baseState, W, GOAL_W]) (by norm_num [cexC2, baseState])
  exact ⟨⟨by norm_num [cexC2, baseState, W, GOAL_W],
    by norm_num [cexC2, baseState, W, GOAL_W], by norm_num [cexC2, baseState]⟩,
    h.1, h.2.2.2.1, h.2.2.2.2.2.2.2.2.2.2.2.2.2.2.1⟩

/-- C2 counterexample.  On the concrete goal tick `cexC2` the score is
incremented, but `trapLock`, `tackleCd` and `trapOwner` keep their values
`240`, `90` and `3` — none of them is reset to its initial value (`0`, `0`
and `-1` in the initial state), contradicting the claim that every possession
tracker is reset. -/
theorem c2_goal_trackers_not_reset_cex :
    (cexC2.ball.y - cexC2.ball.r < 36 ∧ |cexC2.ball.x - W / 2| < GOAL_W / 2) ∧
    (goalStep cexC2).score = cexC2.score + 1 ∧
    (goalStep cexC2).trapLock = 240 ∧ (240 : ℚ) ≠ 0 ∧
    (goalStep cexC2).tackleCd = 90 ∧ (90 : ℚ) ≠ 0 ∧
    (goalStep cexC2).trapOwner = 3 ∧ (3 : ℤ) ≠ -1 := by
  refine ⟨⟨by norm_num [cexC2, baseState, W, GOAL_W],
    by norm_num [cexC2, baseState, W, GOAL_W]⟩, ?_⟩
  norm_num [goalStep, cexC2, baseState, resetBall, progressGoal, advanceLevel,
    applyLevel, W, H, GOAL_W]

/-- C6 (amended).  On every kick the attacker-side trackers are written
together: a shot clears `ptCarrier`, `receiverIndex` and `trapOwner` to `-1`;
a pass clears `ptCarrier` and `trapOwner` and sets `receiverIndex` to the
pass target; both set a fresh trap lock.  Neither kick writes the defender
carrier `state.ai.carrier`, which keeps its value. -/
theorem c6_kick_amended (P : Prim) (now : ℚ) (s : GameState) (idx : ℕ) (m : Player)
    (hm : s.mates.get? idx = some m) :
    ((shoot P now s).ai.ptCarrier = -1 ∧ (shoot P now s).receiverIndex = -1 ∧
      (shoot P now s).trapOwner = -1 ∧ (shoot P now s).trapLock = 250 ∧
      (shoot P now s).ai.carrier = s.ai.carrier) ∧
    ((passToIndex P idx s).ai.ptCarrier = -1 ∧
      (passToIndex P idx s).receiverIndex = (idx : ℤ) ∧
      (passToIndex P idx s).trapOwner = -1 ∧ (passToIndex P idx s).trapLock = 250 ∧
      (passToIndex P idx s).ai.carrier = s.ai.carrier) := by
  constructor
  · simp [shoot]
  · have hm' : s.mates[idx]? = some m := by
      rw [← List.get?_eq_getElem?]
      exact hm
    simp [passToIndex, hm']

/-- C6 witness: the kicks at the concrete state `cexC6` (defender 3 carrying)
with pass target 7. -/
theorem c6_kick_amended_witness :
    cexC6.mates.get? 7 = some (mkPlayer ("LW") 11 330 (1302 / 5)) ∧
    (((shoot primT 100 cexC6).ai.ptCarrier = -1 ∧
      (shoot primT 100 cexC6).receiverIndex = -1 ∧
      (shoot primT 100 cexC6).trapOwner = -1 ∧ (shoot primT 100 cexC6).trapLock = 250 ∧
      (shoot primT 100 cexC6).ai.carrier = cexC6.ai.carrier) ∧
    ((passToIndex primT 7 cexC6).ai.ptCarrier = -1 ∧
      (passToIndex primT 7 cexC6).receiverIndex = (7 : ℤ) ∧
      (passToIndex primT 7 cexC6).trapOwner = -1 ∧
      (passToIndex primT 7 cexC6).trapLock = 250 ∧
      (passToIndex primT 7 cexC6).ai.carrier = cexC6.ai.carrier)) :=
  ⟨rfl, c6_kick_amended primT 100 cexC6 7 (mkPlayer ("LW") 11 330 (1302 / 5)) rfl⟩

/-- C6 counterexample.  At `cexC6` defender 3 is the carrier; after a shot
and after a pass the defender carrier is still `some 3` — the kicks do not
clear it, contradicting the claim that the defender carrier is cleared
together with the receiver trackers. -/
theorem c6_kick_carrier_kept_cex :
    cexC6.ai.carrier = some 3 ∧
    (shoot primT 100 cexC6).ai.carrier = some 3 ∧
    (passToIndex primT 7 cexC6).ai.carrier = some 3 ∧
    some 3 ≠ (none : Option ℕ) := by
  refine ⟨rfl, ?_, ?_, by simp⟩
  · simp [shoot, cexC6, baseState]
  · simp [passToIndex, cexC6, baseState, matesPT, mkPlayer]

/-- `trapScan` returns the first player in roster order that overlaps the
ball, with its roster index shifted by the running offset. -/
theorem trapScan_first (P : Prim) (b : Ball) :
    ∀ (l : List Player) (i : ℕ) (m : Player) (off : ℕ),
      l.get? i = some m →
      hypot P (b.x - m.x) (b.y - m.y) < m.r + b.r - 1 →
      (∀ j mj, j < i → l.get? j = some mj →
        ¬ (hypot P (b.x - mj.x) (b.y - mj.y) < mj.r + b.r - 1)) →
      trapScan P b off l = some (off + i, m) := by
  intro l
  induction l with
  | nil =>
    intro i m off h
    simp at h
  | cons m0 rest ih =>
    intro i m off hget hov hmin
    cases i with
    | zero =>
      have hm0 : m0 = m := by
        have : some m0 = some m := hget
        exact Option.some.inj this
      subst hm0
      unfold trapScan
      rw [if_pos hov]
      simp
    | succ i' =>
      have h0 : ¬ (hypot P (b.x - m0.x) (b.y - m0.y) < m0.r + b.r - 1) :=
        hmin 0 m0 (Nat.succ_pos _) rfl
      unfold trapScan
      rw [if_neg h0]
      have hrec := ih i' m (off + 1) hget hov
        (fun j mj hj hgj => hmin (j + 1) mj (Nat.succ_lt_succ hj) hgj)
      have heq : off + 1 + i' = off + (i' + 1) := by omega
      rw [heq] at hrec
      exact hrec

/-- C7 (amended).  With no trap lock active, the first attacking player in
roster order that overlaps the ball becomes the receiver: the ball snaps to
just above that player with zero velocity and spin, the protection and
trap-lock timers are reset to the positive values 500 and 300, the player
becomes the attacking carrier and the trap owner — but the defender carrier
`state.ai.carrier` is left unchanged, not cleared. -/
theorem c7_trap_amended (P : Prim) (s : GameState) (i : ℕ) (m : Player)
    (hlock : s.trapLock ≤ 0)
    (hget : s.mates.get? i = some m)
    (hov : hypot P (s.ball.x - m.x) (s.ball.y - m.y) < m.r + s.ball.r - 1)
    (hmin : ∀ j mj, j < i → s.mates.get? j = some mj →
      ¬ (hypot P (s.ball.x - mj.x) (s.ball.y - mj.y) < mj.r + s.ball.r - 1)) :
    (trapStep P s).ball.x = m.x ∧ (trapStep P s).ball.y = m.y - 12 ∧
    (trapStep P s).ball.vx = 0 ∧ (trapStep P s).ball.vy = 0 ∧
    (trapStep P s).ball.spin = 0 ∧
    (trapStep P s).protect = 500 ∧ (trapStep P s).trapLock = 300 ∧
    (trapStep P s).receiverIndex = (i : ℤ) ∧ (trapStep P s).trapOwner = (i : ℤ) ∧
    (trapStep P s).ai.ptCarrier = (i : ℤ) ∧
    (trapStep P s).ai.carrier = s.ai.carrier ∧
    0 < (trapStep P s).protect ∧ 0 < (trapStep P s).trapLock := by
  have hscan := trapScan_first P s.ball s.mates i m 0 hget hov hmin
  unfold trapStep
  rw [if_pos hlock, hscan]
  norm_num

/-- C7 witness: the trap at the concrete state `cexC7`, whose first attacking
player stands exactly on the ball. -/
theorem c7_trap_amended_witness :
    (cexC7.trapLock ≤ 0 ∧
      cexC7.mates.get? 0 = some (mkPlayer ("LB") 3 550 310) ∧
      hypot primT (cexC7.ball.x - 550) (cexC7.ball.y - 310) <
        14 + cexC7.ball.r - 1) ∧
    ((trapStep primT cexC7).protect = 500 ∧
      (trapStep primT cexC7).receiverIndex = (0 : ℤ) ∧
      (trapStep primT cexC7).ai.ptCarrier = (0 : ℤ) ∧
      (trapStep primT cexC7).ai.carrier = cexC7.ai.carrier) := by
  have hov : hypot primT (cexC7.ball.x - (mkPlayer ("LB") 3 550 310).x)
      (cexC7.ball.y - (mkPlayer ("LB") 3 550 310).y) <
      (mkPlayer ("LB") 3 550 310).r + cexC7.ball.r - 1 := by
    norm_num [cexC7, baseState, mkPlayer, hypot, primT, W, H, BALL_R]
  have h := c7_trap_amended primT cexC7 0 (mkPlayer ("LB") 3 550 310)
    (by norm_num [cexC7, baseState]) rfl hov
    (fun j mj hj _ => absurd hj (Nat.not_lt_zero j))
  refine ⟨⟨by norm_num [cexC7, baseState], rfl, ?_⟩,
    h.2.2.2.2.2.1, h.2.2.2.2.2.2.2.1, h.2.2.2.2.2.2.2.2.2.1, h.2.2.2.2.2.2.2.2.2.2.1⟩
  simpa [mkPlayer] using hov

/-- C7 counterexample.  At `cexC7` a defender (index 2) is the carrier; the
trap fires (first player overlaps the ball) and sets the receiver, but the
defender carrier is still `some 2` afterwards — not cleared as the claim
states. -/
theorem c7_trap_carrier_kept_cex :
    cexC7.trapLock ≤ 0 ∧
    cexC7.ai.carrier = some 2 ∧
    (trapStep primT cexC7).receiverIndex = 0 ∧
    (trapStep primT cexC7).ai.carrier = some 2 ∧
    some 2 ≠ (none : Option ℕ) := by
  refine ⟨by norm_num [cexC7, baseState], rfl, ?_, ?_, by simp⟩ <;>
    norm_num [trapStep, trapScan, cexC7, baseState, matesC7, matesPT, mkPlayer,
      hypot, primT, W, H, BALL_R]

/-- `wallX` preserves the vertical data and the radius. -/
theorem wallX_projs (b : Ball) :
    (wallX b).y = b.y ∧ (wallX b).vy = b.vy ∧ (wallX b).r = b.r ∧
      (wallX b).spin = b.spin := by
  simp only [wallX]
  split_ifs <;> simp

/-- `wallY` preserves the horizontal data and the radius. -/
theorem wallY_projs (b : Ball) :
    (wallY b).x = b.x ∧ (wallY b).vx = b.vx ∧ (wallY b).r = b.r ∧
      (wallY b).spin = b.spin := by
  simp only [wallY]
  split_ifs <;> simp

/-- The x-axis effect of the walls block. -/
theorem wallX_spec (b : Ball) (h : 24 + b.r ≤ W - 24 - b.r) :
    ((wallX b).x, (wallX b).vx) =
      (if b.x < 24 + b.r then
        (24 + b.r, if b.vx < 0 then -b.vx * RESTITUTION else b.vx)
      else if b.x > W - 24 - b.r then
        (W - 24 - b.r, if b.vx > 0 then -b.vx * RESTITUTION else b.vx)
      else (b.x, b.vx)) := by
  simp only [wallX]
  split_ifs <;> simp_all
  all_goals exfalso; linarith

/-- The y-axis effect of the walls block. -/
theorem wallY_spec (b : Ball) (h : 24 + b.r ≤ H - 24 - b.r) :
    ((wallY b).y, (wallY b).vy) =
      (if b.y < 24 + b.r then
        (24 + b.r, if b.vy < 0 then -b.vy * RESTITUTION else b.vy)
      else if b.y > H - 24 - b.r then
        (H - 24 - b.r, if b.vy > 0 then -b.vy * RESTITUTION else b.vy)
      else (b.y, b.vy)) := by
  simp only [wallY]
  split_ifs <;> simp_all
  all_goals exfalso; linarith

/-- The x-axis effect of the full `resolveWalls`. -/
theorem resolveWalls_x (b : Ball) (h : 24 + b.r ≤ W - 24 - b.r) :
    ((resolveWalls b).x, (resolveWalls b).vx) =
      (if b.x < 24 + b.r then
        (24 + b.r, if b.vx < 0 then -b.vx * RESTITUTION else b.vx)
      else if b.x > W - 24 - b.r then
        (W - 24 - b.r, if b.vx > 0 then -b.vx * RESTITUTION else b.vx)
      else (b.x, b.vx)) := by
  have hy := wallY_projs (wallX b)
  calc ((resolveWalls b).x, (resolveWalls b).vx)
      = ((wallX b).x, (wallX b).vx) := by
        simp only [resolveWalls, hy.1, hy.2.1]
    _ = _ := wallX_spec b h

/-- The y-axis effect of the full `resolveWalls`. -/
theorem resolveWalls_y (b : Ball) (h : 24 + b.r ≤ H - 24 - b.r) :
    ((resolveWalls b).y, (resolveWalls b).vy) =
      (if b.y < 24 + b.r then
        (24 + b.r, if b.vy < 0 then -b.vy * RESTITUTION else b.vy)
      else if b.y > H - 24 - b.r then
        (H - 24 - b.r, if b.vy > 0 then -b.vy * RESTITUTION else b.vy)
      else (b.y, b.vy)) := by
  have hx := wallX_projs b
  have h' : 24 + (wallX b).r ≤ H - 24 - (wallX b).r := by rw [hx.2.2.1]; exact h
  have := wallY_spec (wallX b) h'
  rw [show resolveWalls b = wallY (wallX b) from rfl]
  rw [this, hx.1, hx.2.1, hx.2.2.1]

/-- C8.  Wall resolution: after the walls block the ball lies within all four
inset boundaries; on each edge, a penetrating ball moving into the wall is
clamped to `boundary ∓ radius` with the offending velocity component reversed
and scaled by `RESTITUTION` (magnitude `v · restitution`), and a penetrating
ball already moving away keeps its velocity component (position still
clamped). -/
theorem c8_wall_rebound (b : Ball) (_hr0 : 0 ≤ b.r) (hr : b.r ≤ 286) :
    (24 + b.r ≤ (resolveWalls b).x ∧ (resolveWalls b).x ≤ W - 24 - b.r ∧
      24 + b.r ≤ (resolveWalls b).y ∧ (resolveWalls b).y ≤ H - 24 - b.r) ∧
    ((b.x < 24 + b.r → b.vx < 0 →
      (resolveWalls b).x = 24 + b.r ∧ (resolveWalls b).vx = -b.vx * RESTITUTION) ∧
     (b.x < 24 + b.r → 0 ≤ b.vx →
      (resolveWalls b).x = 24 + b.r ∧ (resolveWalls b).vx = b.vx) ∧
     (b.x > W - 24 - b.r → b.vx > 0 →
      (resolveWalls b).x = W - 24 - b.r ∧ (resolveWalls b).vx = -b.vx * RESTITUTION) ∧
     (b.x > W - 24 - b.r → b.vx ≤ 0 →
      (resolveWalls b).x = W - 24 - b.r ∧ (resolveWalls b).vx = b.vx)) ∧
    ((b.y < 24 + b.r → b.vy < 0 →
      (resolveWalls b).y = 24 + b.r ∧ (resolveWalls b).vy = -b.vy * RESTITUTION) ∧
     (b.y < 24 + b.r → 0 ≤ b.vy →
      (resolveWalls b).y = 24 + b.r ∧ (resolveWalls b).vy = b.vy) ∧
     (b.y > H - 24 - b.r → b.vy > 0 →
      (resolveWalls b).y = H - 24 - b.r ∧ (resolveWalls b).vy = -b.vy * RESTITUTION) ∧
     (b.y > H - 24 - b.r → b.vy ≤ 0 →
      (resolveWalls b).y = H - 24 - b.r ∧ (resolveWalls b).vy = b.vy)) := by
  have hW : 24 + b.r ≤ W - 24 - b.r := by
    rw [show W = (1100 : ℚ) from rfl]
    linarith
  have hH : 24 + b.r ≤ H - 24 - b.r := by
    rw [show H = (620 : ℚ) from rfl]
    linarith
  have hx := resolveWalls_x b hW
  have hy := resolveWalls_y b hH
  have hxc : (resolveWalls b).x =
      (if b.x < 24 + b.r then 24 + b.r
       else if b.x > W - 24 - b.r then W - 24 - b.r else b.x) := by
    have := congrArg Prod.fst hx
    simpa [apply_ite Prod.fst] using this
  have hvxc : (resolveWalls b).vx =
      (if b.x < 24 + b.r then (if b.vx < 0 then -b.vx * RESTITUTION else b.vx)
       else if b.x > W - 24 - b.r then (if b.vx > 0 then -b.vx * RESTITUTION else b.vx)
       else b.vx) := by
    have := congrArg Prod.snd hx
    simpa [apply_ite Prod.snd] using this
  have hyc : (resolveWalls b).y =
      (if b.y < 24 + b.r then 24 + b.r
       else if b.y > H - 24 - b.r then H - 24 - b.r else b.y) := by
    have := congrArg Prod.fst hy
    simpa [apply_ite Prod.fst] using this
  have hvyc : (resolveWalls b).vy =
      (if b.y < 24 + b.r then (if b.vy < 0 then -b.vy * RESTITUTION else b.vy)
       else if b.y > H - 24 - b.r then (if b.vy > 0 then -b.vy * RESTITUTION else b.vy)
       else b.vy) := by
    have := congrArg Prod.snd hy
    simpa [apply_ite Prod.snd] using this
  refine ⟨⟨?_, ?_, ?_, ?_⟩, ⟨?_, ?_, ?_, ?_⟩, ⟨?_, ?_, ?_, ?_⟩⟩
  · rw [hxc]; split_ifs <;> linarith
  · rw [hxc]; split_ifs <;> linarith
  · rw [hyc]; split_ifs <;> linarith
  · rw [hyc]; split_ifs <;> linarith
  · intro h1 h2
    rw [hxc, hvxc, if_pos h1, if_pos h1, if_pos h2]
    exact ⟨rfl, rfl⟩
  · intro h1 h2
    rw [hxc, hvxc, if_pos h1, if_pos h1, if_neg (not_lt.mpr h2)]
    exact ⟨rfl, rfl⟩
  · intro h1 h2
    have h1' : ¬ (b.x < 24 + b.r) := by linarith
    rw [hxc, hvxc, if_neg h1', if_neg h1', if_pos h1, if_pos h1, if_pos h2]
    exact ⟨rfl, rfl⟩
  · intro h1 h2
    have h1' : ¬ (b.x < 24 + b.r) := by linarith
    rw [hxc, hvxc, if_neg h1', if_neg h1', if_pos h1, if_pos h1,
      if_neg (not_lt.mpr h2)]
    exact ⟨rfl, rfl⟩
  · intro h1 h2
    rw [hyc, hvyc, if_pos h1, if_pos h1, if_pos h2]
    exact ⟨rfl, rfl⟩
  · intro h1 h2
    rw [hyc, hvyc, if_pos h1, if_pos h1, if_neg (not_lt.mpr h2)]
    exact ⟨rfl, rfl⟩
  · intro h1 h2
    have h1' : ¬ (b.y < 24 + b.r) := by linarith
    rw [hyc, hvyc, if_neg h1', if_neg h1', if_pos h1, if_pos h1, if_pos h2]
    exact ⟨rfl, rfl⟩
  · intro h1 h2
    have h1' : ¬ (b.y < 24 + b.r) := by linarith
    rw [hyc, hvyc, if_neg h1', if_neg h1', if_pos h1, if_pos h1,
      if_neg (not_lt.mpr h2)]
    exact ⟨rfl, rfl⟩

/-- C8 witness: a concrete ball penetrating the left wall while moving into
it; the theorem instance yields the clamp and the scaled reversal. -/
theorem c8_wall_rebound_witness :
    (0 ≤ (10 : ℚ) ∧ (10 : ℚ) ≤ 286) ∧
    ((20 : ℚ) < 24 + (10 : ℚ) ∧ (-100 : ℚ) < 0) ∧
    ((resolveWalls { x := 20, y := 300, vx := -100, vy := 50, r := 10, spin := 0 }).x =
        24 + (10 : ℚ) ∧
      (resolveWalls { x := 20, y := 300, vx := -100, vy := 50, r := 10, spin := 0 }).vx =
        -(-100 : ℚ) * RESTITUTION) :=
  ⟨⟨by norm_num, by norm_num⟩, ⟨by norm_num, by norm_num⟩,
    (c8_wall_rebound { x := 20, y := 300, vx := -100, vy := 50, r := 10, spin := 0 }
      (by norm_num) (by norm_num)).2.1.1 (by norm_num) (by norm_num)⟩

/-- How `progressGoal` transforms the level counters. -/
theorem progressGoal_level (s : GameState) :
    (progressGoal s).goalsToAdvance = s.goalsToAdvance ∧
    (if s.levelProgress + 1 ≥ s.goalsToAdvance then
      (progressGoal s).levelProgress = 0 ∧
      (progressGoal s).levelIdx = min (LEVELS.length - 1) (s.levelIdx + 1)
    else
      (progressGoal s).levelProgress = s.levelProgress + 1 ∧
      (progressGoal s).levelIdx = s.levelIdx) := by
  simp only [progressGoal, advanceLevel, applyLevel]
  split_ifs <;> simp

/-- C5.  Starting from any state with a fresh intra-tier counter, a positive
advancement threshold `g` and an in-range tier index: after `k` attacking
goals the tier index is exactly `min (last) (start + k / g)` and the counter
is `k mod g` — so the index is non-decreasing in `k`, never exceeds the last
tier index, and advances by exactly one each time the counter reaches the
threshold (at which point the counter resets to zero). -/
theorem c5_tier_progression (s : GameState) (g : ℕ) (hg : 0 < g)
    (hga : s.goalsToAdvance = g) (hp : s.levelProgress = 0)
    (hi : s.levelIdx ≤ LEVELS.length - 1) :
    ∀ k : ℕ,
      ((progressGoal^[k] s).levelIdx = min (LEVELS.length - 1) (s.levelIdx + k / g) ∧
        (progressGoal^[k] s).levelProgress = k % g) ∧
      (progressGoal^[k] s).levelIdx ≤ (progressGoal^[k + 1] s).levelIdx ∧
      (progressGoal^[k] s).levelIdx ≤ LEVELS.length - 1 := by
  have key : ∀ k : ℕ,
      (progressGoal^[k] s).levelIdx = min (LEVELS.length - 1) (s.levelIdx + k / g) ∧
      (progressGoal^[k] s).levelProgress = k % g ∧
      (progressGoal^[k] s).goalsToAdvance = g := by
    intro k
    induction k with
    | zero =>
      refine ⟨?_, ?_, ?_⟩
      · simpa using (min_eq_right hi).symm
      · simpa using hp
      · simpa using hga
    | succ k ih =>
      obtain ⟨hidx, hprog, hadv⟩ := ih
      rw [Function.iterate_succ_apply']
      obtain ⟨hadv', hlev⟩ := progressGoal_level (progressGoal^[k] s)
      rw [hprog, hadv] at hlev
      have hmod := Nat.mod_lt k hg
      by_cases hc : k % g + 1 ≥ g
      · rw [if_pos hc] at hlev
        obtain ⟨hp0, hi1⟩ := hlev
        have h1 := Nat.div_add_mod k g
        have hkg : k % g = g - 1 := by omega
        have hmul : g * (k / g + 1) = g * (k / g) + g := Nat.mul_succ g (k / g)
        have hk1 : k + 1 = g * (k / g + 1) := by omega
        have hdiv : (k + 1) / g = k / g + 1 := by
          rw [hk1, Nat.mul_div_cancel_left _ hg]
        have hmod1 : (k + 1) % g = 0 := by
          rw [hk1]
          exact Nat.mul_mod_right g _
        refine ⟨?_, ?_, ?_⟩
        · rw [hi1, hidx, hdiv]
          omega
        · rw [hp0, hmod1]
        · rw [hadv', hadv]
      · rw [if_neg hc] at hlev
        obtain ⟨hp1, hi1⟩ := hlev
        have hg2 : 2 ≤ g := by omega
        have hmod1 : (k + 1) % g = k % g + 1 := by
          rw [Nat.add_mod]
          rw [Nat.mod_eq_of_lt (show 1 < g by omega)]
          exact Nat.mod_eq_of_lt (by omega)
        have hdiv : (k + 1) / g = k / g := by
          have h1 := Nat.div_add_mod k g
          have h2 := Nat.div_add_mod (k + 1) g
          have hmm : g * ((k + 1) / g) = g * (k / g) := by omega
          exact Nat.eq_of_mul_eq_mul_left hg hmm
        refine ⟨?_, ?_, ?_⟩
        · rw [hi1, hidx, hdiv]
        · rw [hp1, hmod1]
        · rw [hadv', hadv]
  intro k
  refine ⟨⟨(key k).1, (key k).2.1⟩, ?_, ?_⟩
  · rw [(key k).1, (key (k + 1)).1]
    have : k / g ≤ (k + 1) / g := Nat.div_le_div_right (Nat.le_succ k)
    omega
  · rw [(key k).1]
    exact min_le_left _ _

/-- C5 witness: from the initial state (tier 0, threshold 2), five attacking
goals put the tier index at `min 6 (0 + 5 / 2) = 2` with counter `1`. -/
theorem c5_tier_progression_witness :
    (0 < 2 ∧ baseState.goalsToAdvance = 2 ∧ baseState.levelProgress = 0 ∧
      baseState.levelIdx ≤ LEVELS.length - 1) ∧
    ((progressGoal^[5] baseState).levelIdx =
        min (LEVELS.length - 1) (baseState.levelIdx + 5 / 2) ∧
      (progressGoal^[5] baseState).levelProgress = 5 % 2) ∧
    (progressGoal^[5] baseState).levelIdx ≤ LEVELS.length - 1 :=
  ⟨⟨by norm_num, rfl, rfl, by norm_num [baseState, LEVELS]⟩,
    (c5_tier_progression baseState 2 (by norm_num) rfl rfl
      (by norm_num [baseState, LEVELS]) 5).1,
    (c5_tier_progression baseState 2 (by norm_num) rfl rfl
      (by norm_num [baseState, LEVELS]) 5).2.2⟩

/-- The engagement loop never collects more than `maxE - cnt` further
defenders. -/
theorem takeEngaged_length_le (maxE : ℕ) (radE : ℚ) :
    ∀ (l : List (ℕ × ℚ)) (cnt : ℕ), (takeEngaged maxE radE l cnt).length ≤ maxE - cnt := by
  intro l
  induction l with
  | nil =>
    intro cnt
    simp [takeEngaged]
  | cons e rest ih =>
    intro cnt
    unfold takeEngaged
    split_ifs with h1 h2
    · simp
    · simp only [List.length_cons]
      have := ih (cnt + 1)
      omega
    · exact ih cnt

/-- The engagement flag a defender carries out of its loop iteration is
exactly its membership in the engagement set. -/
theorem defMove_engaged (P : Prim) (cfg : Cfg) (E : List ℕ) (dt : ℚ) (ball : Ball)
    (ip : ℕ × Player) : (defMove P cfg E dt ball ip).engaged = decide (ip.1 ∈ E) := by
  simp only [defMove]
  by_cases hE : ip.1 ∈ E <;> by_cases hp : ip.2.engaged <;>
    simp [hE, hp] <;> split_ifs <;> simp_all

/-- The possession half returns the moved player unchanged. -/
theorem defPossess_snd (P : Prim) (cfg : Cfg) (acc : DefAcc) (i : ℕ) (p4 : Player) :
    (defPossess P cfg acc i p4).2 = p4 := by
  simp only [defPossess]
  split_ifs <;> rfl

/-- The engaged-flag count of the defenders leaving the loop equals the count
of indices in the engagement set, whatever the threaded accumulator. -/
theorem defAccum_countP (P : Prim) (cfg : Cfg) (E : List ℕ) (dt : ℚ) :
    ∀ (l : List (ℕ × Player)) (acc : DefAcc),
      ((defAccum P cfg E dt acc l).2).countP (fun p => p.engaged) =
        l.countP (fun ip => decide (ip.1 ∈ E)) := by
  intro l
  induction l with
  | nil =>
    intro acc
    simp [defAccum]
  | cons ip rest ih =>
    intro acc
    simp only [defAccum]
    rw [List.countP_cons, List.countP_cons]
    have hsnd : (defIter P cfg E dt acc ip).2 = defMove P cfg E dt acc.ball ip :=
      defPossess_snd P cfg acc ip.1 (defMove P cfg E dt acc.ball ip)
    rw [hsnd, defMove_engaged, ih]

/-- Counting the members of `E` inside `range n` never exceeds `|E|`. -/
theorem countP_range_mem_le (E : List ℕ) (n : ℕ) :
    (List.range n).countP (fun i => decide (i ∈ E)) ≤ E.length := by
  rw [List.countP_eq_length_filter]
  have hnd : (List.filter (fun i => decide (i ∈ E)) (List.range n)).Nodup :=
    (List.nodup_range n).filter _
  have hsub : (List.filter (fun i => decide (i ∈ E)) (List.range n)).toFinset ⊆
      E.toFinset := by
    intro x hx
    rw [List.mem_toFinset] at hx ⊢
    have := List.of_mem_filter hx
    simpa using this
  calc (List.filter (fun i => decide (i ∈ E)) (List.range n)).length
      = (List.filter (fun i => decide (i ∈ E)) (List.range n)).toFinset.card :=
        (List.toFinset_card_of_nodup hnd).symm
    _ ≤ E.toFinset.card := Finset.card_le_card hsub
    _ ≤ E.length := List.toFinset_card_le E

/-- C4.  After the defensive phase of any tick, the number of defenders whose
engagement flag is set never exceeds the active tier's `maxEngagers`, no
matter how many defenders lie within the engagement radius. -/
theorem c4_engagement_cap (P : Prim) (dt : ℚ) (s : GameState) :
    ((defendersStep P dt s).defenders.countP (fun p => p.engaged)) ≤
      s.cfg.maxEngagers := by
  have h1 : ∀ E : List ℕ,
      (s.defenders.enum).countP (fun ip => decide (ip.1 ∈ E)) =
      (List.range s.defenders.length).countP (fun i => decide (i ∈ E)) := by
    intro E
    rw [← List.enum_map_fst s.defenders, List.countP_map]
    rfl
  simp only [defendersStep]
  rw [defAccum_countP, h1]
  refine le_trans (countP_range_mem_le _ _) ?_
  exact le_trans (takeEngaged_length_le _ _ _ 0) (Nat.sub_le _ _)

/-- With no carrier and one of the three gates closed (protection running,
tackle cooldown running, or ball speed above the tier ceiling), a loop
iteration leaves the shared state untouched: the capture guard fails and the
carrier branch cannot run. -/
theorem defPossess_none_gate (P : Prim) (cfg : Cfg) (acc : DefAcc) (i : ℕ)
    (p4 : Player) (hc : acc.carrier = none)
    (hg : acc.protect > 0 ∨ acc.tackleCd > 0 ∨
      hypot P acc.ball.vx acc.ball.vy > cfg.captureSpeedMax) :
    defPossess P cfg acc i p4 = (acc, p4) := by
  simp only [defPossess]
  have hcap : ¬ (acc.carrier ≠ some i ∧ acc.protect ≤ 0 ∧ acc.tackleCd ≤ 0 ∧
      hypot P (acc.ball.x - p4.x) (acc.ball.y - p4.y) < p4.r + acc.ball.r ∧
      hypot P acc.ball.vx acc.ball.vy ≤ cfg.captureSpeedMax) := by
    rintro ⟨-, h2, h3, -, h5⟩
    rcases hg with h | h | h <;> linarith
  rw [if_neg hcap, if_neg (by rw [hc]; simp)]

/-- With the protection or cooldown gate closed, a loop iteration never
produces a new carrier: the carrier is unchanged or released to `none` (the
carrier's automatic shot), and the gate stays closed. -/
theorem defPossess_gate_carrier (P : Prim) (cfg : Cfg) (acc : DefAcc) (i : ℕ)
    (p4 : Player) (hg : acc.protect > 0 ∨ acc.tackleCd > 0) :
    ((defPossess P cfg acc i p4).1.carrier = acc.carrier ∨
      (defPossess P cfg acc i p4).1.carrier = none) ∧
    ((defPossess P cfg acc i p4).1.protect > 0 ∨
      (defPossess P cfg acc i p4).1.tackleCd > 0) := by
  simp only [defPossess]
  have hcap : ¬ (acc.carrier ≠ some i ∧ acc.protect ≤ 0 ∧ acc.tackleCd ≤ 0 ∧
      hypot P (acc.ball.x - p4.x) (acc.ball.y - p4.y) < p4.r + acc.ball.r ∧
      hypot P acc.ball.vx acc.ball.vy ≤ cfg.captureSpeedMax) := by
    rintro ⟨-, h2, h3, -, -⟩
    rcases hg with h | h <;> linarith
  rw [if_neg hcap]
  by_cases hci : acc.carrier = some i
  · rw [if_pos hci]
    by_cases hz : H - 36 - p4.y < 60 ∧ |p4.x - W / 2| < GOAL_W / 2 - 20
    · rw [if_pos hz]
      exact ⟨Or.inr rfl, Or.inl (by norm_num)⟩
    · rw [if_neg hz]
      exact ⟨Or.inl rfl, hg⟩
  · rw [if_neg hci]
    exact ⟨Or.inl rfl, hg⟩

/-- `defPossess_none_gate` lifted over the whole defender loop. -/
theorem defAccum_none_gate (P : Prim) (cfg : Cfg) (E : List ℕ) (dt : ℚ) :
    ∀ (l : List (ℕ × Player)) (acc : DefAcc),
      acc.carrier = none →
      (acc.protect > 0 ∨ acc.tackleCd > 0 ∨
        hypot P acc.ball.vx acc.ball.vy > cfg.captureSpeedMax) →
      (defAccum P cfg E dt acc l).1 = acc := by
  intro l
  induction l with
  | nil =>
    intro acc _ _
    rfl
  | cons ip rest ih =>
    intro acc hc hg
    simp only [defAccum, defIter]
    rw [defPossess_none_gate P cfg acc ip.1 _ hc hg]
    exact ih acc hc hg

/-- `defPossess_gate_carrier` lifted over the whole defender loop. -/
theorem defAccum_gate_carrier (P : Prim) (cfg : Cfg) (E : List ℕ) (dt : ℚ) :
    ∀ (l : List (ℕ × Player)) (acc : DefAcc),
      (acc.protect > 0 ∨ acc.tackleCd > 0) →
      ((defAccum P cfg E dt acc l).1.carrier = acc.carrier ∨
        (defAccum P cfg E dt acc l).1.carrier = none) := by
  intro l
  induction l with
  | nil =>
    intro acc _
    exact Or.inl rfl
  | cons ip rest ih =>
    intro acc hg
    obtain ⟨hcar, hgate⟩ :=
      defPossess_gate_carrier P cfg acc ip.1 (defMove P cfg E dt acc.ball ip) hg
    simp only [defAccum, defIter]
    rcases ih (defPossess P cfg acc ip.1 (defMove P cfg E dt acc.ball ip)).1 hgate with
      h | h
    · rcases hcar with h2 | h2
      · exact Or.inl (h.trans h2)
      · exact Or.inr (h.trans h2)
    · exact Or.inr h

/-- C3 (amended).  At the defender phase of a tick: if no defender currently
carries the ball, then an active protection window, an unexpired team tackle
cooldown, or a ball speed above the active tier's capture ceiling each
guarantee no tackle succeeds — the carrier stays `none` and the phase leaves
the shared possession state untouched.  If a defender does carry the ball,
protection or cooldown still prevent any new carrier: the carrier is
unchanged, or becomes `none` through the carrying defender's automatic shot.
(The speed gate alone does not extend to a pre-existing carrier: its glue
zeroes the ball's velocity mid-loop, as the counterexample shows.) -/
theorem c3_tackle_gating_amended (P : Prim) (dt : ℚ) (s : GameState) :
    (s.ai.carrier = none →
      (s.protect > 0 ∨ s.tackleCd > 0 ∨
        hypot P s.ball.vx s.ball.vy > s.cfg.captureSpeedMax) →
      (defendersStep P dt s).ai.carrier = none) ∧
    ((s.protect > 0 ∨ s.tackleCd > 0) →
      ((defendersStep P dt s).ai.carrier = s.ai.carrier ∨
        (defendersStep P dt s).ai.carrier = none)) := by
  constructor
  · intro hc hg
    simp only [defendersStep]
    rw [defAccum_none_gate P s.cfg _ dt s.defenders.enum _ hc hg]
    exact hc
  · intro hg
    simp only [defendersStep]
    exact defAccum_gate_carrier P s.cfg _ dt s.defenders.enum _ hg

/-- C3 witness: at `gateState` (no carrier, protection 5 ms) the defender
phase leaves the carrier at `none`. -/
theorem c3_tackle_gating_amended_witness :
    gateState.ai.carrier = none ∧ gateState.protect > 0 ∧
    (defendersStep primT (1 / 100) gateState).ai.carrier = none :=
  ⟨rfl, by norm_num [gateState, baseState],
    (c3_tackle_gating_amended primT (1 / 100) gateState).1 rfl
      (Or.inl (by norm_num [gateState, baseState]))⟩

set_option maxHeartbeats 4000000 in
set_option maxRecDepth 8000 in
/-- C3 counterexample.  At `cexC3` the ball flies at 500 units/s — far above
the active tier's capture ceiling of 280 — and both timer gates are open, yet
the tick produces a new carrier: defender 4's glue zeroes the ball's velocity
mid-loop and defender 5, standing on the glue point, captures it.  A tackle
succeeds and the carrier changes during a tick whose ball speed exceeded the
ceiling, contradicting the claim. -/
theorem c3_speed_gate_bypass_cex :
    hypot primT cexC3.ball.vx cexC3.ball.vy > cexC3.cfg.captureSpeedMax ∧
    cexC3.protect = 0 ∧ cexC3.tackleCd = 0 ∧
    cexC3.ai.carrier = some 4 ∧
    (update primT (1 / 100) cexC3).ai.carrier = some 5 ∧
    (some 5 ≠ some 4 ∧ some 5 ≠ (none : Option ℕ)) := by
  refine ⟨?_, rfl, rfl, rfl, ?_, by simp, by simp⟩
  · norm_num [hypot, primT, cexC3, baseState, GameState.cfg, cfgAt, LEVELS]
  · norm_num [update, tickTimers, integrateBall, wallsStep, resolveWalls, wallX,
      wallY, goalStep, resetBall, progressGoal, advanceLevel, applyLevel, trapStep,
      trapScan, matesStep, mateMove, attachStep, gkUpdate, rotate, gkSave,
      defendersStep, defAccum, defIter, defMove, defPossess, takeEngaged, sortAsc,
      insertAsc, hypot, primT, cexC3, baseState, defendersC3, matesPT, mkPlayer,
      GameState.cfg, cfgAt, LEVELS, W, H, GOAL_W, BALL_R, RESTITUTION,
      TEAMMATE_SPEED, GK_REACT_MS, GK_HOLD_SPEED, List.enum, List.enumFrom]
